import Mathlib

/-!
# Verification of the Mazie numeric runtime (src/mazie_runtime.py)

Shallow embedding of the single source file `mazie_runtime.py`.

Modelling choices:
* Python `float` values are modelled as `ℚ`.  Python's `==` on floats is a
  numeric comparison (so `-0.0 == 0.0` is `True`), the division rule never
  actually performs a float division by zero, and the claims under study
  quantify over finite values, so exact rational arithmetic is an
  observationally faithful model of the float operations the code performs.
  Negative zero collapses onto `0` in this model, exactly as it does under
  Python's `==` test used by `__truediv__`.
* Operands of the arithmetic dunder methods are `int`, `float`, `MazieNum`,
  or anything else (which `_as_num` rejects with `TypeError`); they are
  modelled by the sum type `PyObj`, with `other` carrying a string tag for
  arbitrary non-numeric objects.
* A Python method that can `raise` is modelled as returning
  `Except MazieError _`; `MazieError` covers the two exception kinds the
  code can raise (`TypeError` from `_as_num`, `ZeroDivisionError` from
  `__truediv__`).
-/

/-- Model of `MazieMode` from the source: a frozen dataclass with a single field
`div0_identity : bool` whose Python default is `True`. -/
structure MazieMode where
  div0_identity : Bool
deriving DecidableEq

/-- The Python default `MazieMode()`, i.e. `div0_identity = True`. -/
def defaultMode : MazieMode := ⟨true⟩

/-- Model of `MazieNum` from the source: a frozen dataclass holding a float `value`
and a `mode`. -/
structure MazieNum where
  value : ℚ
  mode : MazieMode
deriving DecidableEq

/-- A Python object as seen by the arithmetic methods: a plain `int`, a
plain `float`, a `MazieNum`, or any other object (modelled with a string
tag), which `_as_num` rejects. -/
inductive PyObj where
  | int (n : ℤ)
  | float (q : ℚ)
  | num (a : MazieNum)
  | other (s : String)
deriving DecidableEq

/-- The two exceptions the source can raise: `TypeError` (from `_as_num`)
and `ZeroDivisionError` (from `__truediv__`). -/
inductive MazieError where
  | typeError
  | zeroDivisionError
deriving DecidableEq

/-- Model of `_as_num(x, mode)` from the source: a `MazieNum` keeps its value and is
rebuilt with the given mode; an `int` or `float` is converted with
`float(x)`; anything else raises `TypeError`. -/
def as_num (x : PyObj) (mode : MazieMode) : Except MazieError MazieNum :=
  match x with
  | .num a => .ok ⟨a.value, mode⟩
  | .int n => .ok ⟨(n : ℚ), mode⟩
  | .float q => .ok ⟨q, mode⟩
  | .other _ => .error .typeError

/-- Model of `MazieNum.unwrap`: returns `float(self.value)` (the stored value). -/
def MazieNum.unwrap (self : MazieNum) : ℚ := self.value

/-- Model of `MazieNum.__add__`: coerce `other` with `self.mode`, then
`MazieNum(self.value + o.value, mode=self.mode)`. -/
def MazieNum.add (self : MazieNum) (other : PyObj) : Except MazieError MazieNum :=
  (as_num other self.mode).map fun o => ⟨self.value + o.value, self.mode⟩

/-- Model of `MazieNum.__radd__`: `_as_num(other, self.mode).__add__(self)`. -/
def MazieNum.radd (self : MazieNum) (other : PyObj) : Except MazieError MazieNum :=
  (as_num other self.mode).bind fun c => c.add (.num self)

/-- Model of `MazieNum.__sub__`: coerce `other` with `self.mode`, then
`MazieNum(self.value - o.value, mode=self.mode)`. -/
def MazieNum.sub (self : MazieNum) (other : PyObj) : Except MazieError MazieNum :=
  (as_num other self.mode).map fun o => ⟨self.value - o.value, self.mode⟩

/-- Model of `MazieNum.__rsub__`: `_as_num(other, self.mode).__sub__(self)`. -/
def MazieNum.rsub (self : MazieNum) (other : PyObj) : Except MazieError MazieNum :=
  (as_num other self.mode).bind fun c => c.sub (.num self)

/-- Model of `MazieNum.__mul__`: coerce `other` with `self.mode`, then
`MazieNum(self.value * o.value, mode=self.mode)`. -/
def MazieNum.mul (self : MazieNum) (other : PyObj) : Except MazieError MazieNum :=
  (as_num other self.mode).map fun o => ⟨self.value * o.value, self.mode⟩

/-- Model of `MazieNum.__rmul__`: `_as_num(other, self.mode).__mul__(self)`. -/
def MazieNum.rmul (self : MazieNum) (other : PyObj) : Except MazieError MazieNum :=
  (as_num other self.mode).bind fun c => c.mul (.num self)

/-- Model of `MazieNum.__truediv__`: coerce `other` with `self.mode`; if the coerced
divisor's value `== 0.0`, either return the dividend unchanged (when
`self.mode.div0_identity`) or raise `ZeroDivisionError`; otherwise divide. -/
def MazieNum.truediv (self : MazieNum) (other : PyObj) : Except MazieError MazieNum :=
  (as_num other self.mode).bind fun o =>
    if o.value = 0 then
      if self.mode.div0_identity then .ok ⟨self.value, self.mode⟩
      else .error .zeroDivisionError
    else .ok ⟨self.value / o.value, self.mode⟩

/-- Model of `MazieNum.__rtruediv__`: `_as_num(other, self.mode).__truediv__(self)`. -/
def MazieNum.rtruediv (self : MazieNum) (other : PyObj) : Except MazieError MazieNum :=
  (as_num other self.mode).bind fun c => c.truediv (.num self)

/-- Model of `MazieNum.__neg__`: `MazieNum(-self.value, mode=self.mode)`. -/
def MazieNum.neg (self : MazieNum) : MazieNum := ⟨-self.value, self.mode⟩

/-- Model of `MazieNum.__eq__`: value comparison against another `MazieNum` or a
plain number (via `float(other)`); `False` for anything else, never raising. -/
def MazieNum.eq (self : MazieNum) (other : PyObj) : Bool :=
  match other with
  | .num o => decide (self.value = o.value)
  | .int n => decide (self.value = (n : ℚ))
  | .float q => decide (self.value = q)
  | .other _ => false

/-- A plain Python number (`int` or `float`), the argument type of `M`. -/
inductive PyNumber where
  | int (n : ℤ)
  | float (q : ℚ)
deriving DecidableEq

/-- Python's `float(x)` on an `int` or `float`. -/
def pyFloat : PyNumber → ℚ
  | .int n => (n : ℚ)
  | .float q => q

/-- Model of `M(x, *, mode=None)` from the source: `MazieNum(float(x), mode=mode or
MazieMode())`; a `MazieMode` instance is always truthy, so `mode or
MazieMode()` is the supplied mode when present and the default otherwise. -/
def M (x : PyNumber) (mode : Option MazieMode) : MazieNum :=
  ⟨pyFloat x, mode.getD defaultMode⟩

/-- The numeric value a `PyObj` contributes as a divisor (its `float`
conversion), or `none` for a non-numeric object. -/
def numVal : PyObj → Option ℚ
  | .int n => some (n : ℚ)
  | .float q => some q
  | .num a => some a.value
  | .other _ => none

/-- Two `PyObj`s of the same shape carrying the same numeric value
(the `MazieNum` case ignores the mode); used to state that results do not
depend on modes. -/
def sameVal : PyObj → PyObj → Prop
  | .int n, .int m => n = m
  | .float q, .float r => q = r
  | .num a, .num b => a.value = b.value
  | .other s, .other t => s = t
  | _, _ => False

/-- C10: construction followed by unwrap is the identity on the numeric
value: for every plain int or float `x` (and any optional mode), `M x` stores
exactly `float(x)` and `unwrap` returns it unmodified. -/
theorem c10_unwrap_after_M (x : PyNumber) (mo : Option MazieMode) :
    (M x mo).unwrap = pyFloat x ∧ (M x mo).value = pyFloat x :=
  ⟨rfl, rfl⟩

/-- C1: dividing a `MazieNum` with value `x` by a zero-valued `MazieNum`
divisor, when the dividend's mode has `div0_identity = true`, returns a
result with value `x` unchanged and the dividend's mode. -/
theorem c1_div_by_zero_identity (x : ℚ) (m bm : MazieMode)
    (h : m.div0_identity = true) :
    (MazieNum.mk x m).truediv (.num ⟨0, bm⟩) = .ok ⟨x, m⟩ := by
  simp [MazieNum.truediv, as_num, h, Except.bind]

/-- C1 witness: `M(5) / M(0)` under the default mode is `M(5)`. -/
theorem c1_div_by_zero_identity_witness :
    (MazieNum.mk 5 defaultMode).truediv (.num ⟨0, defaultMode⟩) =
      .ok ⟨5, defaultMode⟩ :=
  c1_div_by_zero_identity 5 defaultMode defaultMode rfl

/-- C2: division raises `ZeroDivisionError` iff the divisor's numeric value
is zero and the dividend's mode has `div0_identity = false`; division by a
non-zero divisor never raises and yields `a.value / q` with the dividend's
mode. -/
theorem c2_div_by_zero_error (a : MazieNum) (o : PyObj) (q : ℚ)
    (h : numVal o = some q) :
    (a.truediv o = .error .zeroDivisionError ↔
      q = 0 ∧ a.mode.div0_identity = false) ∧
    (q ≠ 0 → a.truediv o = .ok ⟨a.value / q, a.mode⟩) := by
  cases o with
  | int n =>
    simp only [numVal, Option.some.injEq] at h
    subst h
    constructor
    · simp only [MazieNum.truediv, as_num, Except.bind]
      split
      · cases hdi : a.mode.div0_identity <;> simp_all
      · simp_all
    · intro hq
      simp [MazieNum.truediv, as_num, Except.bind, hq]
  | float r =>
    simp only [numVal, Option.some.injEq] at h
    subst h
    constructor
    · simp only [MazieNum.truediv, as_num, Except.bind]
      split
      · cases hdi : a.mode.div0_identity <;> simp_all
      · simp_all
    · intro hq
      simp [MazieNum.truediv, as_num, Except.bind, hq]
  | num b =>
    simp only [numVal, Option.some.injEq] at h
    subst h
    constructor
    · simp only [MazieNum.truediv, as_num, Except.bind]
      split
      · cases hdi : a.mode.div0_identity <;> simp_all
      · simp_all
    · intro hq
      simp [MazieNum.truediv, as_num, Except.bind, hq]
  | other s => simp [numVal] at h

/-- C2 witness: with `div0_identity = false`, `M(5) / M(0)` raises
`ZeroDivisionError`, and `M(10) / M(2)` is `M(5)` without raising. -/
theorem c2_div_by_zero_error_witness :
    (MazieNum.mk 5 ⟨false⟩).truediv (.num ⟨0, defaultMode⟩) =
      .error .zeroDivisionError ∧
    (MazieNum.mk 10 ⟨false⟩).truediv (.num ⟨2, defaultMode⟩) =
      .ok ⟨5, ⟨false⟩⟩ := by
  constructor
  · exact ((c2_div_by_zero_error ⟨5, ⟨false⟩⟩ (.num ⟨0, defaultMode⟩) 0
      rfl).1).mpr ⟨rfl, rfl⟩
  · have h := (c2_div_by_zero_error ⟨10, ⟨false⟩⟩ (.num ⟨2, defaultMode⟩) 2
      rfl).2 (by norm_num)
    norm_num at h
    exact h

/-- C3: a reflected subtraction coerces the plain left operand with the
`MazieNum` operand's mode and then subtracts left-to-right: for any numeric
left operand with value `q`, `__rsub__` yields `q - a.value` carrying
`a.mode`; concretely `5 - M(3)` unwraps to `2`, i.e. `5 - 3`, not `3 - 5`. -/
theorem c3_reflected_sub (a : MazieNum) (o : PyObj) (q : ℚ)
    (h : numVal o = some q) :
    a.rsub o = .ok ⟨q - a.value, a.mode⟩ ∧
    ((M (.float 3) none).rsub (.int 5)).map MazieNum.unwrap = .ok 2 := by
  refine ⟨?_, by norm_num [M, pyFloat, MazieNum.rsub, MazieNum.sub, as_num,
    Except.bind, Except.map, MazieNum.unwrap]⟩
  cases o with
  | int n =>
    simp only [numVal, Option.some.injEq] at h
    subst h
    simp [MazieNum.rsub, MazieNum.sub, as_num, Except.bind, Except.map]
  | float r =>
    simp only [numVal, Option.some.injEq] at h
    subst h
    simp [MazieNum.rsub, MazieNum.sub, as_num, Except.bind, Except.map]
  | num b =>
    simp only [numVal, Option.some.injEq] at h
    subst h
    simp [MazieNum.rsub, MazieNum.sub, as_num, Except.bind, Except.map]
  | other s => simp [numVal] at h

/-- C3 witness: `5 - M(3)` (the reflected form) is `M(2)` with the right
operand's (default) mode. -/
theorem c3_reflected_sub_witness :
    (M (.float 3) none).rsub (.int 5) = .ok ⟨2, defaultMode⟩ := by
  have h := (c3_reflected_sub (M (.float 3) none) (.int 5) 5 rfl).1
  norm_num [M, pyFloat] at h
  exact h

/-- Helper: `_as_num` stamps exactly the mode it is given onto the coerced
value. -/
theorem as_num_mode (x : PyObj) (m : MazieMode) (r : MazieNum)
    (h : as_num x m = .ok r) : r.mode = m := by
  cases x with
  | int n => simp only [as_num, Except.ok.injEq] at h; subst h; rfl
  | float q => simp only [as_num, Except.ok.injEq] at h; subst h; rfl
  | num b => simp only [as_num, Except.ok.injEq] at h; subst h; rfl
  | other s => simp [as_num] at h

/-- Helper: a successful `__add__` result carries `self`'s mode. -/
theorem add_mode (a : MazieNum) (o : PyObj) (r : MazieNum)
    (h : a.add o = .ok r) : r.mode = a.mode := by
  unfold MazieNum.add at h
  cases he : as_num o a.mode with
  | error e => rw [he] at h; simp only [Except.map] at h; exact Except.noConfusion h
  | ok c =>
    rw [he] at h
    simp only [Except.map, Except.ok.injEq] at h
    subst h; rfl

/-- Helper: a successful `__sub__` result carries `self`'s mode. -/
theorem sub_mode (a : MazieNum) (o : PyObj) (r : MazieNum)
    (h : a.sub o = .ok r) : r.mode = a.mode := by
  unfold MazieNum.sub at h
  cases he : as_num o a.mode with
  | error e => rw [he] at h; simp only [Except.map] at h; exact Except.noConfusion h
  | ok c =>
    rw [he] at h
    simp only [Except.map, Except.ok.injEq] at h
    subst h; rfl

/-- Helper: a successful `__mul__` result carries `self`'s mode. -/
theorem mul_mode (a : MazieNum) (o : PyObj) (r : MazieNum)
    (h : a.mul o = .ok r) : r.mode = a.mode := by
  unfold MazieNum.mul at h
  cases he : as_num o a.mode with
  | error e => rw [he] at h; simp only [Except.map] at h; exact Except.noConfusion h
  | ok c =>
    rw [he] at h
    simp only [Except.map, Except.ok.injEq] at h
    subst h; rfl

/-- Helper: a successful `__truediv__` result carries `self`'s mode. -/
theorem truediv_mode (a : MazieNum) (o : PyObj) (r : MazieNum)
    (h : a.truediv o = .ok r) : r.mode = a.mode := by
  unfold MazieNum.truediv at h
  cases he : as_num o a.mode with
  | error e => rw [he] at h; simp only [Except.bind] at h; exact Except.noConfusion h
  | ok c =>
    rw [he] at h
    simp only [Except.bind] at h
    split at h
    · split at h
      · simp only [Except.ok.injEq] at h; subst h; rfl
      · exact Except.noConfusion h
    · simp only [Except.ok.injEq] at h; subst h; rfl

/-- Helper: a successful `__radd__` result carries `self`'s mode. -/
theorem radd_mode (a : MazieNum) (o : PyObj) (r : MazieNum)
    (h : a.radd o = .ok r) : r.mode = a.mode := by
  unfold MazieNum.radd at h
  cases he : as_num o a.mode with
  | error e => rw [he] at h; simp only [Except.bind] at h; exact Except.noConfusion h
  | ok c =>
    rw [he] at h
    simp only [Except.bind] at h
    exact (add_mode c (.num a) r h).trans (as_num_mode o a.mode c he)

/-- Helper: a successful `__rsub__` result carries `self`'s mode. -/
theorem rsub_mode (a : MazieNum) (o : PyObj) (r : MazieNum)
    (h : a.rsub o = .ok r) : r.mode = a.mode := by
  unfold MazieNum.rsub at h
  cases he : as_num o a.mode with
  | error e => rw [he] at h; simp only [Except.bind] at h; exact Except.noConfusion h
  | ok c =>
    rw [he] at h
    simp only [Except.bind] at h
    exact (sub_mode c (.num a) r h).trans (as_num_mode o a.mode c he)

/-- Helper: a successful `__rmul__` result carries `self`'s mode. -/
theorem rmul_mode (a : MazieNum) (o : PyObj) (r : MazieNum)
    (h : a.rmul o = .ok r) : r.mode = a.mode := by
  unfold MazieNum.rmul at h
  cases he : as_num o a.mode with
  | error e => rw [he] at h; simp only [Except.bind] at h; exact Except.noConfusion h
  | ok c =>
    rw [he] at h
    simp only [Except.bind] at h
    exact (mul_mode c (.num a) r h).trans (as_num_mode o a.mode c he)

/-- Helper: a successful `__rtruediv__` result carries `self`'s mode. -/
theorem rtruediv_mode (a : MazieNum) (o : PyObj) (r : MazieNum)
    (h : a.rtruediv o = .ok r) : r.mode = a.mode := by
  unfold MazieNum.rtruediv at h
  cases he : as_num o a.mode with
  | error e => rw [he] at h; simp only [Except.bind] at h; exact Except.noConfusion h
  | ok c =>
    rw [he] at h
    simp only [Except.bind] at h
    exact (truediv_mode c (.num a) r h).trans (as_num_mode o a.mode c he)

/-- C4: every binary arithmetic operation that returns a result gives it the
mode of the `MazieNum` on which the operator was invoked (the expression's
`MazieNum` operand), for the plain and reflected forms alike, and `_as_num`
stamps exactly the mode it is given onto the coerced value. -/
theorem c4_mode_propagation (a r : MazieNum) (o : PyObj) (m : MazieMode) :
    (as_num o m = .ok r → r.mode = m) ∧
    (a.add o = .ok r → r.mode = a.mode) ∧
    (a.sub o = .ok r → r.mode = a.mode) ∧
    (a.mul o = .ok r → r.mode = a.mode) ∧
    (a.truediv o = .ok r → r.mode = a.mode) ∧
    (a.radd o = .ok r → r.mode = a.mode) ∧
    (a.rsub o = .ok r → r.mode = a.mode) ∧
    (a.rmul o = .ok r → r.mode = a.mode) ∧
    (a.rtruediv o = .ok r → r.mode = a.mode) :=
  ⟨as_num_mode o m r, add_mode a o r, sub_mode a o r, mul_mode a o r,
    truediv_mode a o r, radd_mode a o r, rsub_mode a o r, rmul_mode a o r,
    rtruediv_mode a o r⟩

/-- C4 witness: `add(make(5, div0_identity=false), 3)` carries the left
operand's mode, not the default. -/
theorem c4_mode_propagation_witness :
    (MazieNum.mk 8 ⟨false⟩).mode = (MazieNum.mk 5 ⟨false⟩).mode :=
  (c4_mode_propagation ⟨5, ⟨false⟩⟩ ⟨8, ⟨false⟩⟩ (.int 3) defaultMode).2.1
    (by norm_num [MazieNum.add, as_num, Except.map])

/-- C5: the division rule's zero test is exact equality with zero, so a
negative zero divisor (which compares equal to zero) triggers the identity
rule, while any non-zero divisor, however small, is divided by exactly. -/
theorem c5_exact_zero_test (a : MazieNum) (q : ℚ) :
    (a.mode.div0_identity = true →
      a.truediv (.float (-0)) = .ok ⟨a.value, a.mode⟩) ∧
    (q ≠ 0 → a.truediv (.float q) = .ok ⟨a.value / q, a.mode⟩) := by
  constructor
  · intro h
    simp [MazieNum.truediv, as_num, Except.bind, h]
  · intro hq
    simp [MazieNum.truediv, as_num, Except.bind, hq]

/-- C5 witness: `M(7) / (-0.0)` is `M(7)`, while division by the tiny but
non-zero `1 / 1000000` is carried out exactly. -/
theorem c5_exact_zero_test_witness :
    (MazieNum.mk 7 defaultMode).truediv (.float (-0)) =
      .ok ⟨7, defaultMode⟩ ∧
    (MazieNum.mk 7 defaultMode).truediv (.float (1 / 1000000)) =
      .ok ⟨7 / (1 / 1000000), defaultMode⟩ :=
  ⟨(c5_exact_zero_test ⟨7, defaultMode⟩ (1 / 1000000)).1 rfl,
    (c5_exact_zero_test ⟨7, defaultMode⟩ (1 / 1000000)).2 (by norm_num)⟩

/-- Helper: `_as_num` raises `TypeError` exactly on non-numeric operands. -/
theorem as_num_typeError_iff (x : PyObj) (m : MazieMode) :
    as_num x m = .error .typeError ↔ ∃ s, x = .other s := by
  cases x <;> simp [as_num]

/-- Helper: `__add__` raises `TypeError` exactly on non-numeric operands. -/
theorem add_typeError_iff (a : MazieNum) (o : PyObj) :
    a.add o = .error .typeError ↔ ∃ s, o = .other s := by
  cases o <;> simp [MazieNum.add, as_num, Except.map]

/-- Helper: `__sub__` raises `TypeError` exactly on non-numeric operands. -/
theorem sub_typeError_iff (a : MazieNum) (o : PyObj) :
    a.sub o = .error .typeError ↔ ∃ s, o = .other s := by
  cases o <;> simp [MazieNum.sub, as_num, Except.map]

/-- Helper: `__mul__` raises `TypeError` exactly on non-numeric operands. -/
theorem mul_typeError_iff (a : MazieNum) (o : PyObj) :
    a.mul o = .error .typeError ↔ ∃ s, o = .other s := by
  cases o <;> simp [MazieNum.mul, as_num, Except.map]

/-- Helper: `__truediv__` raises `TypeError` exactly on non-numeric
operands (on a zero numeric divisor it either succeeds or raises
`ZeroDivisionError`, never `TypeError`). -/
theorem truediv_typeError_iff (a : MazieNum) (o : PyObj) :
    a.truediv o = .error .typeError ↔ ∃ s, o = .other s := by
  cases o with
  | other s => simp [MazieNum.truediv, as_num, Except.bind]
  | int n =>
    simp only [MazieNum.truediv, as_num, Except.bind]
    constructor
    · intro h
      split at h
      · split at h
        · exact Except.noConfusion h
        · simp at h
      · exact Except.noConfusion h
    · rintro ⟨s, hs⟩
      exact PyObj.noConfusion hs
  | float q =>
    simp only [MazieNum.truediv, as_num, Except.bind]
    constructor
    · intro h
      split at h
      · split at h
        · exact Except.noConfusion h
        · simp at h
      · exact Except.noConfusion h
    · rintro ⟨s, hs⟩
      exact PyObj.noConfusion hs
  | num b =>
    simp only [MazieNum.truediv, as_num, Except.bind]
    constructor
    · intro h
      split at h
      · split at h
        · exact Except.noConfusion h
        · simp at h
      · exact Except.noConfusion h
    · rintro ⟨s, hs⟩
      exact PyObj.noConfusion hs

/-- Helper: `__radd__` raises `TypeError` exactly on non-numeric operands. -/
theorem radd_typeError_iff (a : MazieNum) (o : PyObj) :
    a.radd o = .error .typeError ↔ ∃ s, o = .other s := by
  cases o <;>
    simp [MazieNum.radd, MazieNum.add, as_num, Except.bind, Except.map]

/-- Helper: `__rsub__` raises `TypeError` exactly on non-numeric operands. -/
theorem rsub_typeError_iff (a : MazieNum) (o : PyObj) :
    a.rsub o = .error .typeError ↔ ∃ s, o = .other s := by
  cases o <;>
    simp [MazieNum.rsub, MazieNum.sub, as_num, Except.bind, Except.map]

/-- Helper: `__rmul__` raises `TypeError` exactly on non-numeric operands. -/
theorem rmul_typeError_iff (a : MazieNum) (o : PyObj) :
    a.rmul o = .error .typeError ↔ ∃ s, o = .other s := by
  cases o <;>
    simp [MazieNum.rmul, MazieNum.mul, as_num, Except.bind, Except.map]

/-- Helper: `__rtruediv__` raises `TypeError` exactly on non-numeric
operands. -/
theorem rtruediv_typeError_iff (a : MazieNum) (o : PyObj) :
    a.rtruediv o = .error .typeError ↔ ∃ s, o = .other s := by
  cases o with
  | other s => simp [MazieNum.rtruediv, as_num, Except.bind]
  | int n =>
    simp only [MazieNum.rtruediv, as_num, Except.bind]
    rw [truediv_typeError_iff]
    simp
  | float q =>
    simp only [MazieNum.rtruediv, as_num, Except.bind]
    rw [truediv_typeError_iff]
    simp
  | num b =>
    simp only [MazieNum.rtruediv, as_num, Except.bind]
    rw [truediv_typeError_iff]
    simp

/-- C6: every arithmetic operation, plain or reflected, raises `TypeError`
exactly when its operand is neither a plain number nor a `MazieNum`: the
error occurs on a non-numeric operand and under no other condition. -/
theorem c6_unsupported_operand (a : MazieNum) (o : PyObj) (m : MazieMode) :
    (as_num o m = .error .typeError ↔ ∃ s, o = .other s) ∧
    (a.add o = .error .typeError ↔ ∃ s, o = .other s) ∧
    (a.sub o = .error .typeError ↔ ∃ s, o = .other s) ∧
    (a.mul o = .error .typeError ↔ ∃ s, o = .other s) ∧
    (a.truediv o = .error .typeError ↔ ∃ s, o = .other s) ∧
    (a.radd o = .error .typeError ↔ ∃ s, o = .other s) ∧
    (a.rsub o = .error .typeError ↔ ∃ s, o = .other s) ∧
    (a.rmul o = .error .typeError ↔ ∃ s, o = .other s) ∧
    (a.rtruediv o = .error .typeError ↔ ∃ s, o = .other s) :=
  ⟨as_num_typeError_iff o m, add_typeError_iff a o, sub_typeError_iff a o,
    mul_typeError_iff a o, truediv_typeError_iff a o, radd_typeError_iff a o,
    rsub_typeError_iff a o, rmul_typeError_iff a o, rtruediv_typeError_iff a o⟩

/-- C7: equality compares `value` fields only: two `MazieNum`s are equal iff
their values are equal, a `MazieNum` equals a plain number iff its value
equals `float(number)`, and comparison with any other type is `false`
(total, never raising). -/
theorem c7_equality (a b : MazieNum) (n : ℤ) (q : ℚ) (s : String) :
    (a.eq (.num b) = true ↔ a.value = b.value) ∧
    (a.eq (.int n) = true ↔ a.value = (n : ℚ)) ∧
    (a.eq (.float q) = true ↔ a.value = q) ∧
    a.eq (.other s) = false := by
  simp [MazieNum.eq]

/-- C8: addition and multiplication are commutative under value equality:
swapping which operand is the `MazieNum` leaves the resulting value
unchanged (modes are ignored by `__eq__`). -/
theorem c8_commutativity (x y : ℚ) :
    ∃ r s r2 s2 : MazieNum,
      (M (.float x) none).add (.float y) = .ok r ∧
      (M (.float y) none).add (.float x) = .ok s ∧
      r.eq (.num s) = true ∧
      (M (.float x) none).mul (.float y) = .ok r2 ∧
      (M (.float y) none).mul (.float x) = .ok s2 ∧
      r2.eq (.num s2) = true := by
  refine ⟨⟨x + y, defaultMode⟩, ⟨y + x, defaultMode⟩,
    ⟨x * y, defaultMode⟩, ⟨y * x, defaultMode⟩, ?_, ?_, ?_, ?_, ?_, ?_⟩ <;>
    simp [M, pyFloat, MazieNum.add, MazieNum.mul, MazieNum.eq, as_num,
      Except.map, add_comm, mul_comm]

/-- C9: the numeric value produced by add, sub, mul, neg, and division with
a non-zero divisor does not depend on the mode of either operand: the same
operand values under any two mode configurations yield identical result
values. -/
theorem c9_mode_noninterference (x : ℚ) (m m2 : MazieMode) (o o2 : PyObj)
    (h : sameVal o o2) :
    ((MazieNum.mk x m).add o).map MazieNum.value =
      ((MazieNum.mk x m2).add o2).map MazieNum.value ∧
    ((MazieNum.mk x m).sub o).map MazieNum.value =
      ((MazieNum.mk x m2).sub o2).map MazieNum.value ∧
    ((MazieNum.mk x m).mul o).map MazieNum.value =
      ((MazieNum.mk x m2).mul o2).map MazieNum.value ∧
    (MazieNum.mk x m).neg.value = (MazieNum.mk x m2).neg.value ∧
    (∀ q, numVal o = some q → q ≠ 0 →
      ((MazieNum.mk x m).truediv o).map MazieNum.value =
        ((MazieNum.mk x m2).truediv o2).map MazieNum.value) := by
  cases o <;> cases o2 <;> simp only [sameVal] at h
  · subst h
    refine ⟨by simp [MazieNum.add, as_num, Except.map],
      by simp [MazieNum.sub, as_num, Except.map],
      by simp [MazieNum.mul, as_num, Except.map], rfl, ?_⟩
    intro q hq hq0
    simp only [numVal, Option.some.injEq] at hq
    subst hq
    simp [MazieNum.truediv, as_num, Except.bind, Except.map, hq0]
  · subst h
    refine ⟨by simp [MazieNum.add, as_num, Except.map],
      by simp [MazieNum.sub, as_num, Except.map],
      by simp [MazieNum.mul, as_num, Except.map], rfl, ?_⟩
    intro q hq hq0
    simp only [numVal, Option.some.injEq] at hq
    subst hq
    simp [MazieNum.truediv, as_num, Except.bind, Except.map, hq0]
  · refine ⟨by simp [MazieNum.add, as_num, Except.map, h],
      by simp [MazieNum.sub, as_num, Except.map, h],
      by simp [MazieNum.mul, as_num, Except.map, h], rfl, ?_⟩
    intro q hq hq0
    simp only [numVal, Option.some.injEq] at hq
    subst hq
    simp [MazieNum.truediv, as_num, Except.bind, Except.map, hq0, ← h]
  · subst h
    refine ⟨rfl, rfl, rfl, rfl, ?_⟩
    intro q hq hq0
    simp [numVal] at hq

/-- C9 witness: changing the dividend's mode does not change the value of an
addition. -/
theorem c9_mode_noninterference_witness :
    ((MazieNum.mk 1 ⟨true⟩).add (.int 2)).map MazieNum.value =
      ((MazieNum.mk 1 ⟨false⟩).add (.int 2)).map MazieNum.value :=
  (c9_mode_noninterference 1 ⟨true⟩ ⟨false⟩ (.int 2) (.int 2) rfl).1
